import Mathlib

set_option maxHeartbeats 1000000

/-!
Verification of the Whitecarrot calendar viewer.

The development shallowly embeds the event-handling surface of the
repository: the pure filter, the CSV and print exporters of the calendar
component (`src/unnamed/part_000`), the calendar fetcher
(`src/src/lib/calendar.ts`), and the component's reactive state updates.

Conventions of the embedding:
* JavaScript strings are Lean `String`s; an optional (possibly
  `undefined`/`null`) string field is `Option String`, where `none` models
  an absent value and `some ""` a present empty string.
* The JavaScript library functions the code calls (`trim`, `toLowerCase`,
  `includes`, `replace`, `join`) are modelled over character lists
  (`jsTrim`, `jsLower`, `jsIncludes`, `doubleQuotes`, `String.intercalate`),
  with ASCII models of whitespace and lower-casing.
* The `date-fns` formatters `format(new Date(s), 'PPp')` and
  `format(new Date(s), 'PP')` are parameters `fmtPPp fmtPP : String → String`
  of the exporters; every theorem about the exporters holds for all
  formatter instantiations.
* The network is a function from the issued request to a response.
-/

namespace Whitecarrot

/-- Google Calendar start/end object: optional `dateTime` and `date` strings. -/
structure EventDateTime where
  dateTime : Option String
  date : Option String
deriving DecidableEq, Repr

/-- The fields of a `calendar_v3.Schema$Event` that the component reads.
`none` models a JavaScript `undefined`/`null` field. -/
structure Event where
  summary : Option String
  description : Option String
  location : Option String
  eventType : Option String
  start : Option EventDateTime
  end_ : Option EventDateTime
deriving DecidableEq, Repr

/-- JavaScript falsiness of an optional string: `undefined`, `null` and the
empty string are falsy. -/
def strFalsy : Option String → Bool
  | none => true
  | some s => s == ""

/-- JavaScript `v || d` for an optional string `v` and a default `d`. -/
def jsOr (v : Option String) (d : String) : String :=
  match v with
  | none => d
  | some s => if s == "" then d else s

/-- ASCII model of the whitespace class used by `String.prototype.trim`. -/
def jsWhitespace (c : Char) : Bool :=
  c == ' ' || c == '\t' || c == '\n' || c == '\r' || c == '\x0b' || c == '\x0c'

/-- Model of `String.prototype.trim`: strip leading and trailing whitespace. -/
def jsTrim (s : String) : String :=
  ⟨((s.toList.dropWhile jsWhitespace).reverse.dropWhile jsWhitespace).reverse⟩

/-- Model of `String.prototype.toLowerCase` via `Char.toLower`. -/
def jsLower (s : String) : String :=
  ⟨s.toList.map Char.toLower⟩

/-- Does `needle` occur at the start of `hay`? -/
def listStartsWith : List Char → List Char → Bool
  | [], _ => true
  | _ :: _, [] => false
  | a :: as, b :: bs => a == b && listStartsWith as bs

/-- Does `needle` occur contiguously anywhere in `hay`? -/
def listContains (needle : List Char) : List Char → Bool
  | [] => listStartsWith needle []
  | c :: rest => listStartsWith needle (c :: rest) || listContains needle rest

/-- Model of JavaScript `a.includes(b)`: `b` is a contiguous substring of `a`. -/
def jsIncludes (a b : String) : Bool :=
  listContains b.toList a.toList

/-- Optional-chained search probe `field?.toLowerCase().includes(q)` where
`q` is already lower-cased: an absent field yields a falsy value. -/
def optIncludes (field : Option String) (q : String) : Bool :=
  match field with
  | none => false
  | some s => jsIncludes (jsLower s) q

/-- The `matchesSearch` test of `filterEvents` (`part_000` lines 36–39):
empty-after-trim query, or a case-insensitive substring hit on summary,
description or location. -/
def matchesSearch (e : Event) (searchQuery : String) : Bool :=
  jsTrim searchQuery == "" ||
    optIncludes e.summary (jsLower searchQuery) ||
    optIncludes e.description (jsLower searchQuery) ||
    optIncludes e.location (jsLower searchQuery)

/-- The `matchesType` test of `filterEvents` (`part_000` lines 41–43):
selector `"all"`, strict equality with the event's type, or a falsy
type under selector `"default"`. -/
def matchesType (e : Event) (selectedType : String) : Bool :=
  selectedType == "all" ||
    (match e.eventType with
     | some s => s == selectedType
     | none => false) ||
    (strFalsy e.eventType && selectedType == "default")

/-- `filterEvents` (`part_000` lines 34–47) as a pure function from the
event list and the two criteria to the filtered list. -/
def filterEventsFn (events : List Event) (searchQuery selectedType : String) :
    List Event :=
  events.filter (fun e => matchesSearch e searchQuery && matchesType e selectedType)

/-- The `value` column of the `eventTypes` selector list (`part_000`
lines 20–26). -/
def eventTypeValues : List String :=
  ["all", "default", "fromGmail", "birthday", "workingLocation"]

/-- The start/end cell shared by both exporters (`part_000` lines 53–56 and
110–113): a truthy `dateTime` formats with `'PPp'`, else a truthy `date`
formats with `'PP'`, else `"N/A"`. -/
def formatWhen (fmtPPp fmtPP : String → String) (o : Option EventDateTime) :
    String :=
  match o with
  | none => "N/A"
  | some d =>
    if !strFalsy d.dateTime then fmtPPp (d.dateTime.getD "")
    else if !strFalsy d.date then fmtPP (d.date.getD "")
    else "N/A"

/-- The per-event field list of `exportToCSV` (`part_000` lines 51–60). -/
def csvFields (fmtPPp fmtPP : String → String) (e : Event) : List String :=
  [jsOr e.summary "Untitled Event",
   formatWhen fmtPPp fmtPP e.start,
   formatWhen fmtPPp fmtPP e.end_,
   jsOr e.location "No location",
   jsOr e.eventType "Default",
   jsOr e.description ""]

/-- `cell.replace(/"/g, '""')` over the character list. -/
def doubleQuotes : List Char → List Char
  | [] => []
  | c :: cs => if c == '"' then '"' :: '"' :: doubleQuotes cs else c :: doubleQuotes cs

/-- The quoted cell `"${cell.replace(/"/g, '""')}"` (`part_000` line 64). -/
def csvQuote (cell : String) : String :=
  "\"" ++ ⟨doubleQuotes cell.toList⟩ ++ "\""

/-- The `headers` array of `exportToCSV` (`part_000` line 50). -/
def csvHeaders : List String :=
  ["Title", "Start", "End", "Location", "Type", "Description"]

/-- The `csvContent` string built by `exportToCSV` (`part_000` lines 62–65):
the unquoted joined header, then one joined quoted row per event, joined
with newlines. -/
def csvContent (fmtPPp fmtPP : String → String) (filteredEvents : List Event) :
    String :=
  String.intercalate "\n"
    (String.intercalate "," csvHeaders ::
      filteredEvents.map (fun e =>
        String.intercalate "," ((csvFields fmtPPp fmtPP e).map csvQuote)))

/-- The five table cells of one row of the `exportToPDF` document
(`part_000` lines 109–115). -/
def pdfRowCells (fmtPPp fmtPP : String → String) (e : Event) : List String :=
  [jsOr e.summary "Untitled Event",
   formatWhen fmtPPp fmtPP e.start,
   formatWhen fmtPPp fmtPP e.end_,
   jsOr e.location "No location",
   jsOr e.eventType "Default"]

/-- A request to the calendar events endpoint with its query parameters and
bearer token (`calendar.ts` lines 13–29). -/
structure CalendarRequest where
  timeMin : String
  timeMax : String
  maxResults : String
  singleEvents : String
  orderBy : String
  bearer : String
deriving DecidableEq, Repr

/-- The parts of an endpoint response that `getCalendarEvents` reads:
the success flag, `errorData.error?.message`, and `data.items`. -/
structure NetResponse where
  ok : Bool
  errorMessage : Option String
  items : Option (List Event)
deriving DecidableEq, Repr

/-- The result of `getCalendarEvents` together with the requests issued. -/
structure FetchOutcome where
  result : Except String (List Event)
  requests : List CalendarRequest
deriving Repr

/-- `getCalendarEvents` (`calendar.ts` lines 5–43). `startDate`/`endDate`
are the ISO strings of the optional `Date` arguments; `nowIso` and
`nowPlus30Iso` are the ISO strings of the current instant and of the
current instant plus 30 days; `net` is the environment's response to the
issued request. The token check precedes any request. -/
def getCalendarEvents (startDate endDate : Option String)
    (nowIso nowPlus30Iso : String) (token : Option String)
    (net : CalendarRequest → NetResponse) : FetchOutcome :=
  if strFalsy token then
    { result := Except.error "No access token available", requests := [] }
  else
    let req : CalendarRequest :=
      { timeMin := startDate.getD nowIso
        timeMax := endDate.getD nowPlus30Iso
        maxResults := "100"
        singleEvents := "true"
        orderBy := "startTime"
        bearer := token.getD "" }
    let resp := net req
    if resp.ok then
      { result := Except.ok (resp.items.getD []), requests := [req] }
    else
      { result := Except.error (jsOr resp.errorMessage "Failed to fetch calendar events")
        requests := [req] }

/-- The component state touched by the filter/load logic
(`part_000` lines 8–17). -/
structure CalState where
  events : List Event
  filteredEvents : List Event
  searchQuery : String
  selectedType : String
  errorMsg : Option String
deriving Repr

/-- The initial bindings (`part_000` lines 8–15): empty lists, empty query,
selector `"all"`, no error. -/
def initState : CalState :=
  { events := [], filteredEvents := [], searchQuery := "",
    selectedType := "all", errorMsg := none }

/-- One call of `filterEvents()` as a state update (`part_000` lines 34–47). -/
def runFilter (s : CalState) : CalState :=
  { s with filteredEvents := filterEventsFn s.events s.searchQuery s.selectedType }

/-- The user edits and fetch completions that touch the event lists. -/
inductive Action where
  | setQuery (q : String)
  | setType (t : String)
  | fetchSuccess (evs : List Event)
  | fetchFailure (msg : String)
deriving Repr

/-- One step of the component: a query or selector edit re-runs
`filterEvents` through the reactive block (`part_000` lines 139–143); a
successful fetch replaces `events` and re-filters (lines 155–159); a
failed fetch only records the error message (lines 160–161). -/
def step (s : CalState) : Action → CalState
  | Action.setQuery q => runFilter { s with searchQuery := q }
  | Action.setType t => runFilter { s with selectedType := t }
  | Action.fetchSuccess evs => runFilter { s with events := evs, errorMsg := none }
  | Action.fetchFailure msg => { s with errorMsg := some msg }

/-- The state reached from the initial state by a sequence of actions. -/
def runActions (acts : List Action) : CalState :=
  acts.foldl step initState

/-- The event list delivered by the last successful fetch in the sequence,
`[]` when there has been none. -/
def lastFetched (acts : List Action) : List Event :=
  acts.foldl
    (fun acc a => match a with
      | Action.fetchSuccess evs => evs
      | _ => acc) []

/-! ### Helper lemmas -/

theorem listStartsWith_iff (n h : List Char) :
    listStartsWith n h = true ↔ n <+: h := by
  induction n generalizing h with
  | nil => simp [listStartsWith]
  | cons a as ih =>
    cases h with
    | nil => simp [listStartsWith]
    | cons b bs =>
      rw [List.cons_prefix_cons]
      simp [listStartsWith, ih, Bool.and_eq_true, beq_iff_eq]

theorem listContains_iff (n h : List Char) :
    listContains n h = true ↔ n <:+: h := by
  induction h with
  | nil => simp [listContains, listStartsWith_iff, List.infix_nil, List.prefix_nil]
  | cons c rest ih =>
    simp only [listContains, Bool.or_eq_true, listStartsWith_iff, ih,
      List.infix_cons_iff]

theorem filter_self_filter (p : Whitecarrot.Event → Bool)
    (l : List Whitecarrot.Event) : (l.filter p).filter p = l.filter p := by
  induction l with
  | nil => rfl
  | cons a l ih =>
    by_cases h : p a = true
    · simp [List.filter_cons, h, ih]
    · simp [List.filter_cons, h, ih]

theorem matchesSearch_empty (e : Event) : matchesSearch e "" = true := by
  have h : (jsTrim "" == "") = true := by decide
  simp [matchesSearch, h]

theorem matchesType_all (e : Event) : matchesType e "all" = true := by
  simp [matchesType]

/-! ### Claims -/

/-- C5: filtering is idempotent — for every event list `E`, query `q` and
type selector `t`, filtering the already-filtered result with the same
criteria yields the same result. -/
theorem filterEvents_idempotent (E : List Event) (q t : String) :
    filterEventsFn (filterEventsFn E q t) q t = filterEventsFn E q t :=
  filter_self_filter _ E

/-- C6: filtering any event list with the empty query and type selector
`"all"` returns the list itself, unchanged and order-preserving. -/
theorem filterEvents_empty_all (E : List Event) :
    filterEventsFn E "" "all" = E := by
  unfold filterEventsFn
  apply List.filter_eq_self.mpr
  intro a _
  simp [matchesSearch_empty, matchesType_all]

/-- C7: for every choice of start and end dates (and every environment),
`getCalendarEvents` invoked while the token store holds no token returns
the authentication error `"No access token available"` and issues no
network request. -/
theorem getCalendarEvents_no_token (startDate endDate : Option String)
    (nowIso nowPlus30Iso : String) (net : CalendarRequest → NetResponse) :
    getCalendarEvents startDate endDate nowIso nowPlus30Iso none net =
      { result := Except.error "No access token available", requests := [] } :=
  rfl

/-- C8: with a (truthy) token present, `getCalendarEvents` issues exactly
one request, whose parameters are `timeMin` = the given start instant or
the current instant when unspecified, `timeMax` = the given end instant or
the current instant plus 30 days when unspecified, `maxResults` 100,
`singleEvents` true and `orderBy` startTime, carrying the token. -/
theorem getCalendarEvents_request_parameters (startDate endDate : Option String)
    (nowIso nowPlus30Iso : String) (tok : String) (hne : tok ≠ "")
    (net : CalendarRequest → NetResponse) :
    (getCalendarEvents startDate endDate nowIso nowPlus30Iso (some tok) net).requests =
      [{ timeMin := startDate.getD nowIso
         timeMax := endDate.getD nowPlus30Iso
         maxResults := "100"
         singleEvents := "true"
         orderBy := "startTime"
         bearer := tok }] := by
  have h : strFalsy (some tok) = false := by
    simp [strFalsy, hne]
  unfold getCalendarEvents
  rw [h]
  simp only [Bool.false_eq_true, if_false]
  split <;> rfl

/-- Witness for C8 at a concrete start date, token and network. -/
theorem getCalendarEvents_request_parameters_witness :
    (getCalendarEvents (some "2024-01-15T00:00:00.000Z") none
        "2024-01-01T00:00:00.000Z" "2024-01-31T00:00:00.000Z" (some "tok123")
        (fun _ => { ok := true, errorMessage := none, items := none })).requests =
      [{ timeMin := "2024-01-15T00:00:00.000Z"
         timeMax := "2024-01-31T00:00:00.000Z"
         maxResults := "100"
         singleEvents := "true"
         orderBy := "startTime"
         bearer := "tok123" }] :=
  getCalendarEvents_request_parameters (some "2024-01-15T00:00:00.000Z") none
    "2024-01-01T00:00:00.000Z" "2024-01-31T00:00:00.000Z" "tok123" (by decide)
    (fun _ => { ok := true, errorMessage := none, items := none })

theorem optIncludes_iff (f : Option String) (p : String) :
    optIncludes f p = true ↔ ∃ s, f = some s ∧ p.toList <:+: (jsLower s).toList := by
  cases f with
  | none => simp [optIncludes]
  | some s => simp [optIncludes, jsIncludes, listContains_iff]

/-- A sample event carrying no field values at all. -/
def evNoType : Event :=
  { summary := none, description := none, location := none,
    eventType := none, start := none, end_ := none }

/-- C3: selector `"all"` passes every event; under any other selector the
type test passes exactly when the event's `eventType` equals the selector,
or the event has no (falsy) type value and the selector is `"default"`;
hence an event with no declared type is included under `"default"` and
excluded under every other specific selector. -/
theorem matchesType_semantics (e : Event) (t : String) (hne : t ≠ "all") :
    matchesType e "all" = true ∧
    (matchesType e t = true ↔
      (e.eventType = some t ∨ (strFalsy e.eventType = true ∧ t = "default"))) ∧
    (e.eventType = none → ∀ t2 ∈ eventTypeValues, t2 ≠ "all" →
      (matchesType e t2 = true ↔ t2 = "default")) := by
  refine ⟨matchesType_all e, ?_, ?_⟩
  · cases hE : e.eventType with
    | none => simp [matchesType, hE, strFalsy, hne, beq_iff_eq]
    | some s => simp [matchesType, hE, strFalsy, hne, beq_iff_eq]
  · intro hE t2 ht2 hne2
    fin_cases ht2 <;> simp_all [matchesType, strFalsy]

/-- Witness for C3 at the no-type event and selector `"birthday"`. -/
theorem matchesType_semantics_witness :
    matchesType evNoType "all" = true ∧
    (matchesType evNoType "birthday" = true ↔
      (evNoType.eventType = some "birthday" ∨
        (strFalsy evNoType.eventType = true ∧ "birthday" = "default"))) ∧
    (evNoType.eventType = none → ∀ t2 ∈ eventTypeValues, t2 ≠ "all" →
      (matchesType evNoType t2 = true ↔ t2 = "default")) :=
  matchesType_semantics evNoType "birthday" (by decide)

/-- C4: the text test passes exactly when the query trims to the empty
string (it is empty or whitespace-only), or at least one present field
among summary, description and location contains the query as a
case-insensitive substring; an absent field never contributes a match, and
a query that trims to empty passes for every event. -/
theorem matchesSearch_semantics (e : Event) (q : String) :
    (matchesSearch e q = true ↔
      (jsTrim q = "" ∨
        (∃ s, e.summary = some s ∧ (jsLower q).toList <:+: (jsLower s).toList) ∨
        (∃ s, e.description = some s ∧ (jsLower q).toList <:+: (jsLower s).toList) ∨
        (∃ s, e.location = some s ∧ (jsLower q).toList <:+: (jsLower s).toList))) ∧
    (jsTrim q = "" → ∀ e2 : Event, matchesSearch e2 q = true) := by
  constructor
  · simp only [matchesSearch, Bool.or_eq_true, optIncludes_iff, beq_iff_eq,
      or_assoc]
  · intro h e2
    have hb : (jsTrim q == "") = true := by simp [h]
    simp [matchesSearch, hb]

/-- Witness for C4: a whitespace-only query passes the text test at a
concrete event, via the second conjunct. -/
theorem matchesSearch_semantics_witness :
    matchesSearch evNoType "   " = true :=
  (matchesSearch_semantics evNoType "   ").2 (by decide) evNoType

/-- C9: each row of the print/HTML table equals, cell by cell and event by
event, the first five unquoted CSV field values of the same event — the
same fallbacks and the same date-time-vs-date-only formatting — with the
Description column omitted. -/
theorem pdfRows_refine_csvFields (fmtPPp fmtPP : String → String)
    (evs : List Event) :
    evs.map (pdfRowCells fmtPPp fmtPP) =
      evs.map (fun e => (csvFields fmtPPp fmtPP e).take 5) ∧
    (∀ e : Event, (pdfRowCells fmtPPp fmtPP e).length = 5 ∧
      (csvFields fmtPPp fmtPP e).length = 6) :=
  ⟨List.map_congr_left (fun _ _ => rfl), fun _ => ⟨rfl, rfl⟩⟩

/-- C2: the CSV export is the fixed 6-column header line followed by one
row per event in list order, every field value quoted with internal double
quotes doubled, fields joined by commas and rows by newlines, with the
Untitled Event / N/A / No location / Default / empty-description
fallbacks; in particular the event with title `A"B` and no location and no
type renders title `"A""B"`, location `"No location"`, type `"Default"`. -/
theorem csvContent_format (fmtPPp fmtPP : String → String) (evs : List Event) :
    csvContent fmtPPp fmtPP evs =
      String.intercalate "\n"
        ("Title,Start,End,Location,Type,Description" ::
          evs.map (fun e => String.intercalate ","
            ((csvFields fmtPPp fmtPP e).map csvQuote))) ∧
    (∀ cell : String,
      (csvQuote cell).toList = '"' :: (doubleQuotes cell.toList ++ ['"'])) ∧
    csvContent fmtPPp fmtPP
        [{ summary := some "A\"B", description := none, location := none,
           eventType := none, start := none, end_ := none }] =
      "Title,Start,End,Location,Type,Description\n" ++
        "\"A\"\"B\",\"N/A\",\"N/A\",\"No location\",\"Default\",\"\"" := by
  have hh : String.intercalate "," csvHeaders =
      "Title,Start,End,Location,Type,Description" := by decide
  refine ⟨by simp only [csvContent, hh], fun cell => rfl, ?_⟩
  exact (by decide :
    csvContent id id
        [{ summary := some "A\"B", description := none, location := none,
           eventType := none, start := none, end_ := none }] =
      "Title,Start,End,Location,Type,Description\n" ++
        "\"A\"\"B\",\"N/A\",\"N/A\",\"No location\",\"Default\",\"\"")

/-- C10: present-but-empty string fields behave exactly as absent fields
(JavaScript falsiness): an event whose `eventType` is the empty string
passes the type test for the `"default"` selector and for no other
specific selector; the exporters render the `Untitled Event` /
`No location` / `Default` fallbacks for an empty-string title, location
and type; and a missing or empty description renders in the CSV as the
quoted empty string. -/
theorem empty_string_fields_as_absent (fmtPPp fmtPP : String → String)
    (e : Event) (ht : e.eventType = some "") (hs : e.summary = some "")
    (hl : e.location = some "") :
    (∀ t ∈ eventTypeValues, t ≠ "all" → (matchesType e t = true ↔ t = "default")) ∧
    csvFields fmtPPp fmtPP e =
      ["Untitled Event", formatWhen fmtPPp fmtPP e.start,
       formatWhen fmtPPp fmtPP e.end_, "No location", "Default",
       jsOr e.description ""] ∧
    pdfRowCells fmtPPp fmtPP e =
      ["Untitled Event", formatWhen fmtPPp fmtPP e.start,
       formatWhen fmtPPp fmtPP e.end_, "No location", "Default"] ∧
    (∀ d : Option String, d = none ∨ d = some "" → csvQuote (jsOr d "") = "\"\"") := by
  refine ⟨?_, ?_, ?_, ?_⟩
  · intro t htm hne
    fin_cases htm <;> simp_all [matchesType, strFalsy]
  · simp [csvFields, jsOr, hs, hl, ht]
  · simp [pdfRowCells, jsOr, hs, hl, ht]
  · intro d hd
    rcases hd with h | h <;> subst h <;> decide

/-- A sample event whose optional string fields are all present but empty. -/
def evEmptyFields : Event :=
  { summary := some "", description := some "", location := some "",
    eventType := some "", start := none, end_ := none }

/-- Witness for C10 at the all-empty-string event. -/
theorem empty_string_fields_as_absent_witness :
    (∀ t ∈ eventTypeValues, t ≠ "all" →
      (matchesType evEmptyFields t = true ↔ t = "default")) ∧
    csvFields id id evEmptyFields =
      ["Untitled Event", formatWhen id id evEmptyFields.start,
       formatWhen id id evEmptyFields.end_, "No location", "Default",
       jsOr evEmptyFields.description ""] ∧
    pdfRowCells id id evEmptyFields =
      ["Untitled Event", formatWhen id id evEmptyFields.start,
       formatWhen id id evEmptyFields.end_, "No location", "Default"] ∧
    (∀ d : Option String, d = none ∨ d = some "" → csvQuote (jsOr d "") = "\"\"") :=
  empty_string_fields_as_absent id id evEmptyFields rfl rfl rfl

theorem foldl_step_filter_invariant (acts : List Action) (s : CalState)
    (h : s.filteredEvents = filterEventsFn s.events s.searchQuery s.selectedType) :
    (acts.foldl step s).filteredEvents =
      filterEventsFn (acts.foldl step s).events (acts.foldl step s).searchQuery
        (acts.foldl step s).selectedType := by
  induction acts generalizing s with
  | nil => exact h
  | cons a acts ih =>
    cases a with
    | setQuery q => exact ih _ rfl
    | setType t => exact ih _ rfl
    | fetchSuccess evs => exact ih _ rfl
    | fetchFailure msg => exact ih _ h

theorem foldl_step_events (acts : List Action) (s : CalState) :
    (acts.foldl step s).events =
      acts.foldl
        (fun acc a => match a with
          | Action.fetchSuccess evs => evs
          | _ => acc) s.events := by
  induction acts generalizing s with
  | nil => rfl
  | cons a acts ih =>
    cases a with
    | setQuery q => exact ih _
    | setType t => exact ih _
    | fetchSuccess evs => exact ih _
    | fetchFailure msg => exact ih _

/-- C1: after any sequence of query edits, type-selector changes and fetch
completions, `filteredEvents` equals exactly the order-preserving filter of
the event list delivered by the last successful fetch under the current
query and selector; the `events` list is that last delivery (so no event
from an earlier fetch survives a later successful one); and a failed fetch
changes neither `events` nor `filteredEvents`. -/
theorem calendar_state_invariant (acts : List Action) :
    (runActions acts).events = lastFetched acts ∧
    (runActions acts).filteredEvents =
      filterEventsFn (lastFetched acts) (runActions acts).searchQuery
        (runActions acts).selectedType ∧
    (∀ msg : String,
      (step (runActions acts) (Action.fetchFailure msg)).events =
        (runActions acts).events ∧
      (step (runActions acts) (Action.fetchFailure msg)).filteredEvents =
        (runActions acts).filteredEvents) := by
  have hev : (runActions acts).events = lastFetched acts :=
    foldl_step_events acts initState
  have hfil := foldl_step_filter_invariant acts initState rfl
  exact ⟨hev, by rw [← hev]; exact hfil, fun msg => ⟨rfl, rfl⟩⟩

end Whitecarrot
